import Mathlib

/-!
Shallow embedding of `src/main.py`: a console contact book built from
`Field` subclasses (`Name`, `Phone`, `Birthday`), `Record`, and
`AddressBook`, together with the CLI handler `add_contact`.

Python exceptions are modelled with `Except` / explicit error components;
mutating methods return the post-state explicitly.  Python `datetime`
values are modelled by a calendar date plus microseconds since midnight,
with the calendar arithmetic (`toordinal`, `weekday`, leap years)
translated from CPython's `datetime` module, which `main.py` calls.
-/

/-- Errors raised by the Python code: `ValueError msg`, and the
`UnboundLocalError` raised when a function body reads a local variable
that has not been assigned yet (its message is version-dependent, so only
the variable name is recorded). -/
inductive PyError where
  | valueError (msg : String)
  | unboundLocal (var : String)
deriving DecidableEq

/-- Proleptic-Gregorian leap-year test used by Python `datetime`
(`year % 4 == 0 and (year % 100 != 0 or year % 400 == 0)`). -/
def isLeap (y : Nat) : Bool :=
  y % 4 == 0 && (y % 100 != 0 || y % 400 == 0)

/-- `_days_in_month` of CPython `datetime`. -/
def daysInMonth (y m : Nat) : Nat :=
  if m = 2 then (if isLeap y then 29 else 28)
  else if m = 4 ∨ m = 6 ∨ m = 9 ∨ m = 11 then 30
  else 31

/-- The `_DAYS_BEFORE_MONTH` table of CPython `datetime` (non-leap year). -/
def monthOffset (m : Nat) : Nat :=
  match m with
  | 1 => 0 | 2 => 31 | 3 => 59 | 4 => 90 | 5 => 120 | 6 => 151
  | 7 => 181 | 8 => 212 | 9 => 243 | 10 => 273 | 11 => 304 | 12 => 334
  | _ => 0

/-- `_days_before_month` of CPython `datetime`. -/
def daysBeforeMonth (y m : Nat) : Nat :=
  monthOffset m + (if 2 < m ∧ isLeap y then 1 else 0)

/-- `_days_before_year` of CPython `datetime`. -/
def daysBeforeYear (y : Nat) : Nat :=
  365 * (y - 1) + (y - 1) / 4 - (y - 1) / 100 + (y - 1) / 400

/-- A Python `datetime` value: a calendar date plus the time of day in
microseconds.  `datetime.now()` carries a nonzero time of day in general;
values produced by `strptime` with the date-only format `%d.%m.%Y` have
`micros = 0`. -/
structure PyDateTime where
  year : Nat
  month : Nat
  day : Nat
  micros : Nat
deriving DecidableEq

/-- `date.toordinal()`: day number counting 0001-01-01 as day 1. -/
def toordinal (d : PyDateTime) : Nat :=
  daysBeforeYear d.year + daysBeforeMonth d.year d.month + d.day

/-- `date.weekday()`: Monday = 0, ..., Saturday = 5, Sunday = 6
(CPython: `(self.toordinal() + 6) % 7`). -/
def weekday (d : PyDateTime) : Nat :=
  (toordinal d + 6) % 7

/-- Python `datetime` comparison: lexicographic on
(year, month, day, time-of-day). -/
def dtLt (a b : PyDateTime) : Bool :=
  decide (a.year < b.year ∨ (a.year = b.year ∧
    (a.month < b.month ∨ (a.month = b.month ∧
      (a.day < b.day ∨ (a.day = b.day ∧ a.micros < b.micros))))))

/-- Microseconds per day. -/
def usPerDay : Int := 86400000000

/-- A `datetime` as an absolute count of microseconds (ordinal day count
times `usPerDay`, plus the time of day). -/
def toMicros (d : PyDateTime) : Int :=
  (toordinal d : Int) * usPerDay + (d.micros : Int)

/-- `(a - b).days` for Python datetimes: `timedelta.days` floors, so this
is the floor of the exact difference in days. -/
def daysBetween (a b : PyDateTime) : Int :=
  Int.fdiv (toMicros a - toMicros b) usPerDay

/-- Validity of a (year, month, day) triple as checked by the Python
`datetime` constructor (`MINYEAR = 1`, `MAXYEAR = 9999`). -/
def dateCtorOk (y m d : Nat) : Prop :=
  1 ≤ y ∧ y ≤ 9999 ∧ 1 ≤ m ∧ m ≤ 12 ∧ 1 ≤ d ∧ d ≤ daysInMonth y m

instance (y m d : Nat) : Decidable (dateCtorOk y m d) := by
  unfold dateCtorOk; infer_instance

/-- Structural date validity (no upper year bound); what the date
arithmetic lemmas need. -/
def dateOk (d : PyDateTime) : Prop :=
  1 ≤ d.year ∧ 1 ≤ d.month ∧ d.month ≤ 12 ∧ 1 ≤ d.day ∧ d.day ≤ daysInMonth d.year d.month

instance (d : PyDateTime) : Decidable (dateOk d) := by
  unfold dateOk; infer_instance

/-- `datetime.replace(year=y)`: keeps month, day and time of day, and
re-runs the constructor's validity check on the new combination. -/
def replaceYear (d : PyDateTime) (y : Nat) : Except PyError PyDateTime :=
  if 1 ≤ y ∧ y ≤ 9999 then
    if d.day ≤ daysInMonth y d.month then .ok { d with year := y }
    else .error (.valueError "day is out of range for month")
  else .error (.valueError ("year " ++ toString y ++ " is out of range"))

/-- Advance a datetime by one calendar day (time of day unchanged). -/
def nextDay (d : PyDateTime) : PyDateTime :=
  if d.day < daysInMonth d.year d.month then { d with day := d.day + 1 }
  else if d.month < 12 then { d with month := d.month + 1, day := 1 }
  else { d with year := d.year + 1, month := 1, day := 1 }

/-- `d + timedelta(days=k)` (within the representable range). -/
def addDays (d : PyDateTime) : Nat → PyDateTime
  | 0 => d
  | k + 1 => addDays (nextDay d) k

/-- Lines 98-99 of `main.py`: if the date falls on a Saturday (5) or
Sunday (6), add `7 - weekday` days. -/
def weekendShift (d : PyDateTime) : PyDateTime :=
  if weekday d = 5 ∨ weekday d = 6 then addDays d (7 - weekday d) else d

/-- Two-digit zero-padded decimal rendering (`%d`, `%m`). -/
def pad2 (n : Nat) : List Char :=
  [Nat.digitChar (n / 10 % 10), Nat.digitChar (n % 10)]

/-- Four-digit zero-padded decimal rendering (`%Y`, as documented for
CPython `strftime`). -/
def pad4 (n : Nat) : List Char :=
  [Nat.digitChar (n / 1000 % 10), Nat.digitChar (n / 100 % 10),
   Nat.digitChar (n / 10 % 10), Nat.digitChar (n % 10)]

/-- `strftime("%d.%m.%Y")`. -/
def strftimeDMY (d : PyDateTime) : String :=
  ⟨pad2 d.day ++ '.' :: pad2 d.month ++ '.' :: pad4 d.year⟩

/-- ASCII decimal digit test. -/
def isAsciiDigit (c : Char) : Bool :=
  '0' ≤ c && c ≤ '9'

/-- The complete set of code points on which CPython's `str.isdigit`
returns `True` — the characters with Unicode property `Numeric_Type=Digit`
or `Numeric_Type=Decimal` (Unicode 14.0, as shipped with CPython 3.11) —
as inclusive ranges of `Char.toNat` values.  The first range is ASCII
`0`-`9`; the rest are the superscripts, subscripts, enclosed digits and
the non-ASCII decimal digit blocks. -/
def pyDigitRanges : List (Nat × Nat) :=
 [(48, 57), (178, 179), (185, 185), (1632, 1641), (1776, 1785),
  (1984, 1993), (2406, 2415), (2534, 2543), (2662, 2671), (2790, 2799),
  (2918, 2927), (3046, 3055), (3174, 3183), (3302, 3311), (3430, 3439),
  (3558, 3567), (3664, 3673), (3792, 3801), (3872, 3881), (4160, 4169),
  (4240, 4249), (4969, 4977), (6112, 6121), (6160, 6169), (6470, 6479),
  (6608, 6618), (6784, 6793), (6800, 6809), (6992, 7001), (7088, 7097),
  (7232, 7241), (7248, 7257), (8304, 8304), (8308, 8313), (8320, 8329),
  (9312, 9320), (9332, 9340), (9352, 9360), (9450, 9450), (9461, 9469),
  (9471, 9471), (10102, 10110), (10112, 10120), (10122, 10130), (42528, 42537),
  (43216, 43225), (43264, 43273), (43472, 43481), (43504, 43513), (43600, 43609),
  (44016, 44025), (65296, 65305), (66720, 66729), (68160, 68163), (68912, 68921),
  (69216, 69224), (69714, 69722), (69734, 69743), (69872, 69881), (69942, 69951),
  (70096, 70105), (70384, 70393), (70736, 70745), (70864, 70873), (71248, 71257),
  (71360, 71369), (71472, 71481), (71904, 71913), (72016, 72025), (72784, 72793),
  (73040, 73049), (73120, 73129), (92768, 92777), (92864, 92873), (93008, 93017),
  (120782, 120831), (123200, 123209), (123632, 123641), (125264, 125273), (127232, 127242),
  (130032, 130041)]

/-- Python `str.isdigit`, the per-character test `Phone.__init__` applies:
true exactly on the code points of `pyDigitRanges`.  The ASCII digits are
kept as an explicit first disjunct (they are also the table's first
range). -/
def pyIsDigit (c : Char) : Bool :=
  isAsciiDigit c || pyDigitRanges.any (fun r => r.1 ≤ c.toNat && c.toNat ≤ r.2)

instance {ε α : Type} [DecidableEq ε] [DecidableEq α] : DecidableEq (Except ε α) := fun
  | .error e, .error e' =>
    if h : e = e' then .isTrue (by rw [h]) else .isFalse (by intro hh; cases hh; exact h rfl)
  | .error _, .ok _ => .isFalse (by intro h; cases h)
  | .ok _, .error _ => .isFalse (by intro h; cases h)
  | .ok a, .ok b =>
    if h : a = b then .isTrue (by rw [h]) else .isFalse (by intro hh; cases hh; exact h rfl)

/-- A `Phone` field: wraps the validated 10-character string. -/
structure Phone where
  value : String
deriving DecidableEq

/-- `Phone.__init__` (lines 29-32): requires a string `number` with
`number.isdigit()` (hence nonempty) and `len(number) == 10`, else raises
`ValueError`. -/
def Phone.mk? (number : String) : Except PyError Phone :=
  if !number.data.isEmpty && number.data.all pyIsDigit && number.length == 10 then
    .ok ⟨number⟩
  else
    .error (.valueError "The phone number must be a string of 10 digits")

/-- Split a character list at every `'.'`, as the literal dots of the
`strptime` format `%d.%m.%Y` do. -/
def splitDots : List Char → List (List Char)
  | [] => [[]]
  | c :: rest =>
    match splitDots rest with
    | [] => [[]]
    | g :: gs => if c = '.' then [] :: g :: gs else (c :: g) :: gs

/-- Decimal value of a digit-character list. -/
def digitsToNat (l : List Char) : Nat :=
  l.foldl (fun a c => a * 10 + (c.toNat - 48)) 0

/-- The `%d` field regex of CPython `_strptime`
(`3[01]|[12]\d|0[1-9]|[1-9]`): one or two ASCII digits with value 1-31. -/
def dayFieldOk (l : List Char) : Bool :=
  l.all isAsciiDigit && (l.length == 1 || l.length == 2)
    && 1 ≤ digitsToNat l && digitsToNat l ≤ 31

/-- The `%m` field regex of CPython `_strptime`
(`1[0-2]|0[1-9]|[1-9]`): one or two ASCII digits with value 1-12. -/
def monthFieldOk (l : List Char) : Bool :=
  l.all isAsciiDigit && (l.length == 1 || l.length == 2)
    && 1 ≤ digitsToNat l && digitsToNat l ≤ 12

/-- The `%Y` field regex of CPython `_strptime`: exactly four digits. -/
def yearFieldOk (l : List Char) : Bool :=
  l.all isAsciiDigit && l.length == 4

/-- `datetime.strptime(s, "%d.%m.%Y")` restricted to ASCII digits:
the three dot-separated fields must match their regexes and the triple
must pass the `datetime` constructor check. -/
def strptimeDMY (s : String) : Except PyError PyDateTime :=
  match splitDots s.data with
  | [df, mf, yf] =>
    if dayFieldOk df && monthFieldOk mf && yearFieldOk yf then
      let d := digitsToNat df
      let m := digitsToNat mf
      let y := digitsToNat yf
      if 1 ≤ y ∧ d ≤ daysInMonth y m then .ok ⟨y, m, d, 0⟩
      else .error (.valueError "day is out of range for month")
    else .error (.valueError "time data does not match format")
  | _ => .error (.valueError "time data does not match format")

/-- `Birthday.__init__` (lines 18-25): parse the string with
`strptime("%d.%m.%Y")`; any `ValueError` is replaced by
`ValueError("Invalid date format. Use DD.MM.YYYY")`.  The stored value is
the parsed datetime (midnight). -/
def Birthday.mk? (value : String) : Except PyError PyDateTime :=
  match strptimeDMY value with
  | .ok d => .ok d
  | .error _ => .error (.valueError "Invalid date format. Use DD.MM.YYYY")

/-- A `Record` (lines 35-70): a contact name, an ordered phone list and an
optional birthday (the parsed datetime stored by `Birthday`). -/
structure Record where
  name : String
  phones : List Phone
  birthday : Option PyDateTime
deriving DecidableEq

/-- `Record.__init__`. -/
def Record.new (name : String) : Record :=
  ⟨name, [], none⟩

/-- `Record.add_phone` (lines 41-43): construct the `Phone` (which may
raise, leaving the record untouched), then append it. -/
def Record.add_phone (r : Record) (number : String) : Record × Option PyError :=
  match Phone.mk? number with
  | .error e => (r, some e)
  | .ok p => ({ r with phones := r.phones ++ [p] }, none)

/-- `Record.add_birthday` (lines 45-46). -/
def Record.add_birthday (r : Record) (birthday : String) : Record × Option PyError :=
  match Birthday.mk? birthday with
  | .error e => (r, some e)
  | .ok b => ({ r with birthday := some b }, none)

/-- Remove the first element whose `value` equals `number`; `none` when no
element matches (the loop of `remove_phone`, lines 49-53). -/
def removeFirstValue (number : String) : List Phone → Option (List Phone)
  | [] => none
  | p :: rest =>
    if p.value = number then some rest
    else
      match removeFirstValue number rest with
      | some rest' => some (p :: rest')
      | none => none

/-- `Record.remove_phone` (lines 48-53): remove the first phone whose
value equals `number` and return `true`; return `false` (no error, no
change) when none matches. -/
def Record.remove_phone (r : Record) (number : String) : Record × Bool :=
  match removeFirstValue number r.phones with
  | some ps => ({ r with phones := ps }, true)
  | none => (r, false)

/-- `Record.find_phone` (lines 63-67): first phone whose value equals
`number`, else `None`. -/
def Record.find_phone (r : Record) (number : String) : Option Phone :=
  r.phones.find? (fun p => p.value == number)

/-- `Record.edit_phone` (lines 55-61): if the old number is found, append
the (validated) new number and then remove the old one; otherwise raise
`ValueError`.  A validation failure of the new number propagates before
any mutation. -/
def Record.edit_phone (r : Record) (old_number new_number : String) :
    Record × Option PyError :=
  match r.find_phone old_number with
  | some _ =>
    match r.add_phone new_number with
    | (r', some e) => (r', some e)
    | (r', none) => ((r'.remove_phone old_number).1, none)
  | none => (r, some (.valueError ("Old number " ++ old_number ++ " not found")))

/-- An `AddressBook` (lines 73-109): the underlying `self.data` dict,
modelled as an insertion-ordered association list with unique keys. -/
structure AddressBook where
  data : List (String × Record)
deriving DecidableEq

/-- Python dict assignment `data[k] = v`: overwrite in place if the key is
present, else append. -/
def setKey (k : String) (v : Record) : List (String × Record) → List (String × Record)
  | [] => [(k, v)]
  | (k', v') :: rest => if k' = k then (k, v) :: rest else (k', v') :: setKey k v rest

/-- Python dict deletion `del data[k]`: drop the (unique) binding of `k`. -/
def delKey (k : String) : List (String × Record) → List (String × Record)
  | [] => []
  | (k', v') :: rest => if k' = k then rest else (k', v') :: delKey k rest

/-- `name in self.data`. -/
def AddressBook.containsName (book : AddressBook) (name : String) : Bool :=
  book.data.any (fun kv => kv.1 == name)

/-- `AddressBook.add_record` (lines 74-75): `self.data[record.name.value] = record`. -/
def AddressBook.add_record (book : AddressBook) (r : Record) : AddressBook :=
  ⟨setKey r.name r book.data⟩

/-- `AddressBook.find` (lines 77-78): `self.data.get(name, None)`. -/
def AddressBook.find (book : AddressBook) (name : String) : Option Record :=
  (book.data.find? (fun kv => kv.1 == name)).map (fun kv => kv.2)

/-- `AddressBook.delete` (lines 80-84): delete the entry, or raise
`ValueError` when the name is absent. -/
def AddressBook.delete (book : AddressBook) (name : String) :
    AddressBook × Option PyError :=
  if book.containsName name then (⟨delKey name book.data⟩, none)
  else (book, some (.valueError ("Record with name " ++ name ++ " not found.")))

/-- `self.data.values()` in insertion order. -/
def AddressBook.values (book : AddressBook) : List Record :=
  book.data.map (fun kv => kv.2)

/-- One iteration of the loop of `get_upcoming_birthdays` (lines 89-103).
`carried` is the current value of the local variable `this_year_birthday`
(`none` while it is still unbound): the code only reassigns it when the
record has a birthday, so a birthday-less record reuses the previous
iteration's value, and reading it while unbound raises
`UnboundLocalError`. -/
def birthdayStep (today : PyDateTime) (carried : Option PyDateTime)
    (acc : List (String × String)) (rec : Record) :
    Except PyError (Option PyDateTime × List (String × String)) :=
  match (match rec.birthday with
         | some b => replaceYear b today.year
         | none =>
           match carried with
           | some v => Except.ok v
           | none => Except.error (.unboundLocal "this_year_birthday")) with
  | .error e => .error e
  | .ok tyb0 =>
    match (if dtLt tyb0 today then replaceYear tyb0 (today.year + 1)
           else Except.ok tyb0) with
    | .error e => .error e
    | .ok tyb =>
      let days := daysBetween tyb today
      if 0 ≤ days ∧ days ≤ 7 then
        let shifted := weekendShift tyb
        .ok (some shifted, acc ++ [(rec.name, strftimeDMY shifted)])
      else
        .ok (some tyb, acc)

/-- The loop of `get_upcoming_birthdays` over the remaining records. -/
def birthdayLoop (today : PyDateTime) (carried : Option PyDateTime)
    (acc : List (String × String)) : List Record → Except PyError (List (String × String))
  | [] => .ok acc
  | r :: rest =>
    match birthdayStep today carried acc r with
    | .error e => .error e
    | .ok (c', acc') => birthdayLoop today c' acc' rest

/-- `AddressBook.get_upcoming_birthdays` (lines 86-104), parameterised by
the value `today` that `datetime.now()` returns at the call.  Each output
entry is the `name` / formatted `birthday` pair the code appends. -/
def AddressBook.get_upcoming_birthdays (book : AddressBook) (today : PyDateTime) :
    Except PyError (List (String × String)) :=
  birthdayLoop today none [] book.values

/-- The handler `add_contact` (lines 137-144) under the `input_error`
decorator (lines 113-126), for a two-token argument list `[name, phone]`:
returns the post-state of the book and the printed message. -/
def add_contact (name phone : String) (book : AddressBook) : AddressBook × String :=
  if book.containsName name then
    (book, "ValueError: Contact with name " ++ name ++ " already exists.")
  else
    match (Record.new name).add_phone phone with
    | (_, some (.valueError msg)) => (book, "ValueError: " ++ msg)
    | (_, some (.unboundLocal v)) => (book, v)
    | (rec, none) => (book.add_record rec, "Contact added.")

example : weekday ⟨2024, 6, 10, 0⟩ = 0 := by decide
example : weekday ⟨2024, 6, 15, 0⟩ = 5 := by decide
example : weekday ⟨1, 1, 1, 0⟩ = 0 := by decide
example : Birthday.mk? "24.08.1991" = .ok ⟨1991, 8, 24, 0⟩ := by decide
example : Birthday.mk? "1.1.2024" = .ok ⟨2024, 1, 1, 0⟩ := by decide
example : Birthday.mk? "31.02.2020" =
    .error (.valueError "Invalid date format. Use DD.MM.YYYY") := by decide
example : Birthday.mk? "2024-01-01" =
    .error (.valueError "Invalid date format. Use DD.MM.YYYY") := by decide
example : Phone.mk? "1234567890" = .ok ⟨"1234567890"⟩ := by decide
example : Phone.mk? "bad" =
    .error (.valueError "The phone number must be a string of 10 digits") := by decide
example : strftimeDMY ⟨2024, 6, 17, 0⟩ = "17.06.2024" := by decide
example : daysBetween ⟨2024, 6, 12, 0⟩ ⟨2024, 6, 10, 0⟩ = 2 := by decide
example : daysBetween ⟨2025, 6, 10, 0⟩ ⟨2024, 6, 10, 43200000000⟩ = 364 := by decide

example :
    AddressBook.get_upcoming_birthdays
      ⟨[("Ann", ⟨"Ann", [], some ⟨1990, 6, 12, 0⟩⟩), ("Dee", ⟨"Dee", [], none⟩)]⟩
      ⟨2024, 6, 10, 0⟩ =
    .ok [("Ann", "12.06.2024"), ("Dee", "12.06.2024")] := by decide

example :
    AddressBook.get_upcoming_birthdays ⟨[("Dee", ⟨"Dee", [], none⟩)]⟩ ⟨2024, 6, 10, 0⟩ =
    .error (.unboundLocal "this_year_birthday") := by decide

example :
    AddressBook.get_upcoming_birthdays
      ⟨[("Bob", ⟨"Bob", [], some ⟨1985, 6, 15, 0⟩⟩)]⟩ ⟨2024, 6, 10, 0⟩ =
    .ok [("Bob", "17.06.2024")] := by decide

example :
    AddressBook.get_upcoming_birthdays
      ⟨[("Eve", ⟨"Eve", [], some ⟨1990, 6, 10, 0⟩⟩)]⟩ ⟨2024, 6, 10, 43200000000⟩ =
    .ok [] := by decide

example :
    AddressBook.get_upcoming_birthdays
      ⟨[("Cid", ⟨"Cid", [], some ⟨1992, 6, 20, 0⟩⟩)]⟩ ⟨2024, 6, 10, 0⟩ =
    .ok [] := by decide

/-! ### Calendar arithmetic lemmas -/

theorem daysInMonth_pos (y m : Nat) : 1 ≤ daysInMonth y m := by
  unfold daysInMonth
  split_ifs <;> omega

set_option maxHeartbeats 2000000 in
theorem daysBeforeYear_succ (y : Nat) (hy : 1 ≤ y) :
    daysBeforeYear (y + 1) = daysBeforeYear y + 365 + (if isLeap y then 1 else 0) := by
  unfold daysBeforeYear isLeap
  split_ifs with h
  · simp only [Bool.and_eq_true, Bool.or_eq_true, beq_iff_eq, bne_iff_ne, ne_eq] at h
    omega
  · simp only [Bool.and_eq_true, Bool.or_eq_true, beq_iff_eq, bne_iff_ne, ne_eq,
      not_and, not_or, not_not] at h
    omega

theorem daysBeforeMonth_succ (y m : Nat) (h1 : 1 ≤ m) (h2 : m < 12) :
    daysBeforeMonth y (m + 1) = daysBeforeMonth y m + daysInMonth y m := by
  by_cases hl : isLeap y = true <;>
    interval_cases m <;>
    simp [daysBeforeMonth, daysInMonth, monthOffset, hl]

theorem toordinal_nextDay (d : PyDateTime) (h : dateOk d) :
    toordinal (nextDay d) = toordinal d + 1 := by
  obtain ⟨h1, h2, h3, h4, h5⟩ := h
  unfold nextDay
  split_ifs with hd hm
  · simp only [toordinal]
    omega
  · simp only [toordinal]
    rw [daysBeforeMonth_succ d.year d.month h2 hm]
    omega
  · have hm12 : d.month = 12 := by omega
    have hday : d.day = 31 := by
      have : daysInMonth d.year d.month = 31 := by
        rw [hm12]; simp [daysInMonth]
      omega
    simp only [toordinal]
    rw [daysBeforeYear_succ d.year h1, hm12, hday]
    by_cases hl : isLeap d.year = true <;>
      simp [daysBeforeMonth, monthOffset, hl]

theorem nextDay_dateOk (d : PyDateTime) (h : dateOk d) : dateOk (nextDay d) := by
  obtain ⟨h1, h2, h3, h4, h5⟩ := h
  unfold nextDay
  split_ifs with hd hm
  · exact ⟨h1, h2, h3, Nat.le_succ_of_le h4, hd⟩
  · exact ⟨h1, Nat.succ_le_succ (Nat.zero_le _), hm, Nat.le_refl _, daysInMonth_pos _ _⟩
  · exact ⟨Nat.le_succ_of_le h1, Nat.le_refl _, show (1 : Nat) ≤ 12 by decide,
      Nat.le_refl _, daysInMonth_pos _ _⟩

theorem toordinal_addDays (d : PyDateTime) (k : Nat) (h : dateOk d) :
    toordinal (addDays d k) = toordinal d + k := by
  induction k generalizing d with
  | zero => simp [addDays]
  | succ n ih =>
    simp only [addDays]
    rw [ih (nextDay d) (nextDay_dateOk d h), toordinal_nextDay d h]
    omega

theorem toordinal_year_succ_ge (y m d u : Nat) (hy : 1 ≤ y) :
    toordinal ⟨y, m, d, u⟩ + 365 ≤ toordinal ⟨y + 1, m, d, u⟩ := by
  have h := daysBeforeYear_succ y hy
  simp only [toordinal, daysBeforeMonth]
  by_cases hl1 : isLeap y = true <;> by_cases hl2 : isLeap (y + 1) = true <;>
    by_cases hm2 : 2 < m <;>
    simp only [hl1, hl2, hm2, if_true, if_false, and_true, and_false, true_and,
      false_and, if_pos, ite_true, ite_false] at h ⊢ <;>
    omega

/-! ### Phone-list and dictionary lemmas -/

theorem find_phone_none_iff (r : Record) (n : String) :
    r.find_phone n = none ↔ ∀ p ∈ r.phones, p.value ≠ n := by
  simp [Record.find_phone, List.find?_eq_none]

theorem removeFirstValue_eq_none (n : String) (l : List Phone)
    (h : ∀ p ∈ l, p.value ≠ n) : removeFirstValue n l = none := by
  induction l with
  | nil => rfl
  | cons p rest ih =>
    simp only [removeFirstValue]
    rw [if_neg (h p (by simp)), ih (fun q hq => h q (by simp [hq]))]

theorem removeFirstValue_first_match (n : String) (l1 l2 : List Phone) (p : Phone)
    (hp : p.value = n) (h1 : ∀ q ∈ l1, q.value ≠ n) :
    removeFirstValue n (l1 ++ p :: l2) = some (l1 ++ l2) := by
  induction l1 with
  | nil => simp [removeFirstValue, hp]
  | cons q rest ih =>
    simp only [List.cons_append, removeFirstValue, List.append_eq]
    rw [if_neg (h1 q (by simp)), ih (fun x hx => h1 x (by simp [hx]))]

theorem removeFirstValue_append_right (n : String) (l l2 l' : List Phone)
    (h : removeFirstValue n l = some l') :
    removeFirstValue n (l ++ l2) = some (l' ++ l2) := by
  induction l generalizing l' with
  | nil => simp [removeFirstValue] at h
  | cons p rest ih =>
    simp only [List.cons_append, removeFirstValue, List.append_eq] at h ⊢
    by_cases hp : p.value = n
    · rw [if_pos hp] at h ⊢
      injection h with h
      rw [← h]
    · rw [if_neg hp] at h ⊢
      cases hrest : removeFirstValue n rest with
      | none => rw [hrest] at h; cases h
      | some r' =>
        rw [hrest] at h
        injection h with h
        rw [ih r' hrest, ← h]
        rfl

theorem removeFirstValue_isSome (n : String) (l : List Phone) (p : Phone)
    (hm : p ∈ l) (hp : p.value = n) : ∃ l', removeFirstValue n l = some l' := by
  induction l with
  | nil => cases hm
  | cons q rest ih =>
    simp only [removeFirstValue]
    by_cases hq : q.value = n
    · exact ⟨rest, by rw [if_pos hq]⟩
    · rcases List.mem_cons.mp hm with h | h
      · exact absurd (h ▸ hp) hq
      · obtain ⟨l', hl'⟩ := ih h
        exact ⟨q :: l', by rw [if_neg hq, hl']⟩

/-- The phone list after `remove_phone` when viewed as a pure function:
the first phone with the given value removed, or the list unchanged. -/
def eraseVal (n : String) (l : List Phone) : List Phone :=
  match removeFirstValue n l with
  | some l' => l'
  | none => l

theorem containsName_false_find (book : AddressBook) (name : String)
    (h : book.containsName name = false) : book.find name = none := by
  simp only [AddressBook.containsName, List.any_eq_false] at h
  unfold AddressBook.find
  rw [List.find?_eq_none.mpr h]
  rfl


theorem delKey_find_none (name : String) (l : List (String × Record))
    (hnd : (l.map Prod.fst).Nodup) :
    List.find? (fun kv => kv.1 == name) (delKey name l) = none := by
  induction l with
  | nil => rfl
  | cons kv rest ih =>
    obtain ⟨hnotmem, hrest⟩ := List.nodup_cons.mp hnd
    simp only [delKey]
    by_cases hk : kv.1 = name
    · rw [if_pos hk, List.find?_eq_none]
      intro x hx
      simp only [beq_iff_eq]
      intro hxname
      exact hnotmem (by
        rw [hk, ← hxname]
        exact List.mem_map_of_mem Prod.fst hx)
    · rw [if_neg hk, List.find?_cons_of_neg _ (by simp [hk])]
      exact ih hrest

/-! ### Claim theorems -/

/-- C9: `Record.remove_phone` removes the first phone whose value equals the
given number under exact string match and returns `true`; when no phone
matches it returns `false`, raises nothing, and leaves the record (hence its
phone list) unchanged. -/
theorem c9_remove_phone_spec (r : Record) (number : String) :
    ((∀ p ∈ r.phones, p.value ≠ number) → r.remove_phone number = (r, false)) ∧
    (∀ l1 p l2, r.phones = l1 ++ p :: l2 → p.value = number →
      (∀ q ∈ l1, q.value ≠ number) →
      r.remove_phone number = ({ r with phones := l1 ++ l2 }, true)) := by
  constructor
  · intro h
    unfold Record.remove_phone
    rw [removeFirstValue_eq_none number r.phones h]
  · intro l1 p l2 hsplit hp h1
    unfold Record.remove_phone
    rw [hsplit, removeFirstValue_first_match number l1 l2 p hp h1]

theorem c9_remove_phone_spec_witness :
    Record.remove_phone ⟨"John", [⟨"1112223333"⟩], none⟩ "9999999999" =
      (⟨"John", [⟨"1112223333"⟩], none⟩, false) ∧
    Record.remove_phone ⟨"John", [⟨"1112223333"⟩, ⟨"4445556666"⟩], none⟩ "1112223333" =
      (⟨"John", [⟨"4445556666"⟩], none⟩, true) := by
  constructor
  · exact (c9_remove_phone_spec ⟨"John", [⟨"1112223333"⟩], none⟩ "9999999999").1 (by decide)
  · exact (c9_remove_phone_spec ⟨"John", [⟨"1112223333"⟩, ⟨"4445556666"⟩], none⟩
      "1112223333").2 [] ⟨"1112223333"⟩ [⟨"4445556666"⟩] rfl rfl (by simp)

/-- C3: `edit_phone` fails with the not-found `ValueError` when no phone in
the record equals the old number, and on every failure (old number absent, or
new number failing phone validation) the record is exactly what it was before
the call: no removal happens before the new number validates. -/
theorem c3_edit_phone_failure_preserves_state (r : Record) (old_number new_number : String) :
    ((∀ p ∈ r.phones, p.value ≠ old_number) →
      r.edit_phone old_number new_number =
        (r, some (.valueError ("Old number " ++ old_number ++ " not found")))) ∧
    (∀ e, (r.edit_phone old_number new_number).2 = some e →
      (r.edit_phone old_number new_number).1 = r) := by
  constructor
  · intro h
    unfold Record.edit_phone
    rw [(find_phone_none_iff r old_number).mpr h]
  · intro e
    unfold Record.edit_phone
    cases hf : r.find_phone old_number with
    | none => intro _; rfl
    | some p =>
      unfold Record.add_phone
      cases hm : Phone.mk? new_number with
      | error e' => intro _; rfl
      | ok pn => intro hcontra; exact Option.noConfusion hcontra

theorem c3_edit_phone_failure_preserves_state_witness :
    Record.edit_phone ⟨"John", [⟨"1112223333"⟩], none⟩ "9999999999" "4445556666" =
      (⟨"John", [⟨"1112223333"⟩], none⟩,
        some (.valueError "Old number 9999999999 not found")) ∧
    (Record.edit_phone ⟨"John", [⟨"1112223333"⟩], none⟩ "1112223333" "bad").1 =
      ⟨"John", [⟨"1112223333"⟩], none⟩ := by
  constructor
  · exact (c3_edit_phone_failure_preserves_state ⟨"John", [⟨"1112223333"⟩], none⟩
      "9999999999" "4445556666").1 (by decide)
  · exact (c3_edit_phone_failure_preserves_state ⟨"John", [⟨"1112223333"⟩], none⟩
      "1112223333" "bad").2 (.valueError "The phone number must be a string of 10 digits")
      (by decide)

/-- C7: when `edit_phone` succeeds (old number present, new number valid), the
old number is replaced by the new one: the first phone equal to the old number
is removed and the new phone is appended at the end. -/
theorem c7_edit_phone_replaces (r : Record) (old_number new_number : String) (pn : Phone)
    (h1 : r.find_phone old_number ≠ none)
    (h2 : Phone.mk? new_number = .ok pn) :
    r.edit_phone old_number new_number =
      ({ r with phones := eraseVal old_number r.phones ++ [pn] }, none) := by
  obtain ⟨p, hp⟩ := Option.ne_none_iff_exists'.mp h1
  have hpv : p.value = old_number := by
    have := List.find?_some hp
    simpa using this
  have hpm : p ∈ r.phones := List.mem_of_find?_eq_some hp
  obtain ⟨l', hl'⟩ := removeFirstValue_isSome old_number r.phones p hpm hpv
  simp only [Record.edit_phone, hp, Record.add_phone, h2, Record.remove_phone, eraseVal]
  rw [removeFirstValue_append_right old_number r.phones [pn] l' hl', hl']

theorem c7_edit_phone_replaces_witness :
    Record.edit_phone ⟨"John", [⟨"1112223333"⟩], none⟩ "1112223333" "4445556666" =
      (⟨"John", [⟨"4445556666"⟩], none⟩, none) :=
  c7_edit_phone_replaces ⟨"John", [⟨"1112223333"⟩], none⟩ "1112223333" "4445556666"
    ⟨"4445556666"⟩ (by decide) (by decide)

/-- C8: `AddressBook.delete` fails with the not-found `ValueError` and leaves
the book unchanged when the name is not a key; when the name is present (keys
being unique, as Python dict keys are) it removes that entry, so a subsequent
`find` returns `None`. -/
theorem c8_delete_spec (book : AddressBook) (name : String) :
    (book.containsName name = false →
      book.delete name =
        (book, some (.valueError ("Record with name " ++ name ++ " not found.")))) ∧
    (book.containsName name = true → (book.data.map Prod.fst).Nodup →
      (book.delete name).2 = none ∧ (book.delete name).1.find name = none) := by
  constructor
  · intro h
    unfold AddressBook.delete
    rw [h]
    rfl
  · intro h hnd
    unfold AddressBook.delete
    rw [h, if_pos rfl]
    refine ⟨rfl, ?_⟩
    show AddressBook.find ⟨delKey name book.data⟩ name = none
    unfold AddressBook.find
    rw [delKey_find_none name book.data hnd]
    rfl

theorem c8_delete_spec_witness :
    AddressBook.delete ⟨[("Ann", ⟨"Ann", [], none⟩)]⟩ "Bob" =
      (⟨[("Ann", ⟨"Ann", [], none⟩)]⟩,
        some (.valueError "Record with name Bob not found.")) ∧
    (AddressBook.delete ⟨[("Ann", ⟨"Ann", [], none⟩)]⟩ "Ann").2 = none ∧
    (AddressBook.delete ⟨[("Ann", ⟨"Ann", [], none⟩)]⟩ "Ann").1.find "Ann" = none := by
  refine ⟨?_, ?_⟩
  · exact (c8_delete_spec ⟨[("Ann", ⟨"Ann", [], none⟩)]⟩ "Bob").1 (by decide)
  · exact (c8_delete_spec ⟨[("Ann", ⟨"Ann", [], none⟩)]⟩ "Ann").2 (by decide) (by simp)

/-- C10: calling the add-contact handler with a name not in the book and a
phone string failing validation reports the `ValueError` and leaves the book
unchanged: no record for that name is inserted, because the phone is
validated before the record is added to the book. -/
theorem c10_add_contact_invalid_phone (name phone : String) (book : AddressBook) (msg : String)
    (h1 : book.containsName name = false)
    (h2 : Phone.mk? phone = .error (.valueError msg)) :
    add_contact name phone book = (book, "ValueError: " ++ msg) ∧
      book.find name = none := by
  constructor
  · simp [add_contact, h1, Record.add_phone, h2]
  · exact containsName_false_find book name h1

theorem c10_add_contact_invalid_phone_witness :
    add_contact "Ann" "bad" ⟨[]⟩ =
      (⟨[]⟩, "ValueError: The phone number must be a string of 10 digits") ∧
      AddressBook.find ⟨[]⟩ "Ann" = none :=
  c10_add_contact_invalid_phone "Ann" "bad" ⟨[]⟩
    "The phone number must be a string of 10 digits" rfl rfl

theorem replaceYear_ok (d : PyDateTime) (y : Nat) (h1 : 1 ≤ y) (h2 : y ≤ 9999)
    (h3 : d.day ≤ daysInMonth y d.month) :
    replaceYear d y = .ok { d with year := y } := by
  unfold replaceYear
  rw [if_pos ⟨h1, h2⟩, if_pos h3]

/-- C1 (code bug): the loop variable `this_year_birthday` is reassigned only
when the record has a birthday, so a birthday-less record reuses the previous
record's candidate — here "Dee", who has no birthday, is emitted with "Ann"'s
candidate date — and when the first record lacks a birthday, the function
raises `UnboundLocalError` instead of skipping it. -/
theorem c1_birthdayless_record_leaks :
    AddressBook.get_upcoming_birthdays
        ⟨[("Ann", ⟨"Ann", [], some ⟨1990, 6, 12, 0⟩⟩), ("Dee", ⟨"Dee", [], none⟩)]⟩
        ⟨2024, 6, 10, 0⟩ =
      .ok [("Ann", "12.06.2024"), ("Dee", "12.06.2024")] ∧
    AddressBook.get_upcoming_birthdays ⟨[("Dee", ⟨"Dee", [], none⟩)]⟩ ⟨2024, 6, 10, 0⟩ =
      .error (.unboundLocal "this_year_birthday") := by
  exact ⟨by decide, by decide⟩

/-- C2 (counterexample): the code compares the midnight candidate against the
full `datetime.now()` value, not a date-only value.  With now = 2024-06-10
12:00 and a record whose birthday is June 10, the candidate 2024-06-10 00:00
is strictly before now, is advanced a whole year, and the contact is excluded
— the claim instead requires `days_until = 0` and inclusion. -/
theorem c2_same_day_birthday_excluded :
    (⟨"Eve", [], some ⟨1990, 6, 10, 0⟩⟩ : Record).birthday = some ⟨1990, 6, 10, 0⟩ ∧
    (⟨2024, 6, 10, 43200000000⟩ : PyDateTime).month = 6 ∧
    (⟨2024, 6, 10, 43200000000⟩ : PyDateTime).day = 10 ∧
    AddressBook.get_upcoming_birthdays
        ⟨[("Eve", ⟨"Eve", [], some ⟨1990, 6, 10, 0⟩⟩)]⟩ ⟨2024, 6, 10, 43200000000⟩ =
      .ok [] :=
  ⟨rfl, rfl, rfl, by decide⟩

/-- C2 (amended): for every record with a birthday, the candidate is the
birthday's month/day at midnight in today's year, advanced to today's year + 1
exactly when it is strictly before `today` under the full `datetime`
comparison (time of day included), and the contact is included exactly when
`0 ≤ days_until ≤ 7`, where `days_until` floors `(candidate - today)` in
days.  Consequently (second conjunct) a birthday falling on today's month/day
with `today` strictly after midnight is advanced a year, leaving
`days_until > 7`, so the contact is excluded rather than counted with
`days_until = 0`. -/
theorem c2_candidate_and_window_datetime (today : PyDateTime) (carried : Option PyDateTime)
    (acc : List (String × String)) (rec : Record) (b : PyDateTime)
    (hb : rec.birthday = some b)
    (h1 : dateCtorOk today.year b.month b.day)
    (h2 : dateCtorOk (today.year + 1) b.month b.day) :
    (birthdayStep today carried acc rec =
      (let cand : PyDateTime :=
        if dtLt { b with year := today.year } today then { b with year := today.year + 1 }
        else { b with year := today.year }
      let days := daysBetween cand today
      if 0 ≤ days ∧ days ≤ 7 then
        .ok (some (weekendShift cand), acc ++ [(rec.name, strftimeDMY (weekendShift cand))])
      else .ok (some cand, acc))) ∧
    (b.month = today.month → b.day = today.day → b.micros = 0 → 0 < today.micros →
      today.micros < 86400000000 →
      7 < daysBetween { b with year := today.year + 1 } today) := by
  obtain ⟨hy1, hy2, hm1, hm2, hd1, hd2⟩ := h1
  obtain ⟨hy1', hy2', -, -, -, hd2'⟩ := h2
  constructor
  · have e1 : replaceYear b today.year = .ok { b with year := today.year } :=
      replaceYear_ok b today.year hy1 hy2 hd2
    have e2 : replaceYear { b with year := today.year } (today.year + 1) =
        .ok { b with year := today.year + 1 } :=
      replaceYear_ok { b with year := today.year } (today.year + 1) (by omega) hy2' hd2'
    simp only [birthdayStep, hb, e1, e2]
    by_cases hlt : dtLt { b with year := today.year } today = true
    · simp only [if_pos hlt]
    · simp only [if_neg hlt]
  · intro hmo hda hbm htpos htlt
    have hord := toordinal_year_succ_ge today.year b.month b.day b.micros hy1
    have hT : toordinal today = toordinal ⟨today.year, b.month, b.day, b.micros⟩ := by
      show daysBeforeYear today.year + daysBeforeMonth today.year today.month + today.day =
        daysBeforeYear today.year + daysBeforeMonth today.year b.month + b.day
      rw [hmo, hda]
    show 7 < Int.fdiv
      (((toordinal ⟨today.year + 1, b.month, b.day, b.micros⟩ : Nat) : Int) * usPerDay
          + (b.micros : Int)
        - (((toordinal today : Nat) : Int) * usPerDay + (today.micros : Int))) usPerDay
    rw [hT, show usPerDay = (86400000000 : Int) from rfl,
      Int.fdiv_eq_ediv _ (by decide)]
    have h364 : (364 : Int) ≤
        (((toordinal ⟨today.year + 1, b.month, b.day, b.micros⟩ : Nat) : Int) * 86400000000
            + (b.micros : Int)
          - (((toordinal ⟨today.year, b.month, b.day, b.micros⟩ : Nat) : Int) * 86400000000
            + (today.micros : Int))) / 86400000000 := by
      rw [Int.le_ediv_iff_mul_le (by decide)]
      omega
    omega

theorem c2_candidate_and_window_datetime_witness :
    birthdayStep ⟨2024, 6, 10, 43200000000⟩ none [] ⟨"Eve", [], some ⟨1990, 6, 10, 0⟩⟩ =
      .ok (some ⟨2025, 6, 10, 0⟩, []) ∧
    7 < daysBetween ⟨2025, 6, 10, 0⟩ ⟨2024, 6, 10, 43200000000⟩ := by
  have h := c2_candidate_and_window_datetime ⟨2024, 6, 10, 43200000000⟩ none []
    ⟨"Eve", [], some ⟨1990, 6, 10, 0⟩⟩ ⟨1990, 6, 10, 0⟩ rfl (by decide) (by decide)
  constructor
  · rw [h.1]
    decide
  · exact h.2 rfl rfl rfl (by decide) (by decide)

/-- C6: after a candidate passes the window check, a Saturday (weekday 5) or
Sunday (weekday 6) candidate is shifted forward by `7 - weekday` days, which
lands on the following Monday (weekday 0), while weekday candidates are left
alone; and in the spec's scenario (today = Monday 2024-06-10, Bob's birthday
15.06.1985 giving the Saturday candidate 15.06.2024), the emitted entry pairs
Bob's name with the shifted date rendered as DD.MM.YYYY: "17.06.2024". -/
theorem c6_weekend_shift_to_monday (d : PyDateTime) (h : dateOk d) :
    ((weekday d = 5 ∨ weekday d = 6) →
      toordinal (weekendShift d) = toordinal d + (7 - weekday d) ∧
        weekday (weekendShift d) = 0) ∧
    (¬(weekday d = 5 ∨ weekday d = 6) → weekendShift d = d) ∧
    AddressBook.get_upcoming_birthdays
        ⟨[("Bob", ⟨"Bob", [], some ⟨1985, 6, 15, 0⟩⟩)]⟩ ⟨2024, 6, 10, 0⟩ =
      .ok [("Bob", "17.06.2024")] := by
  refine ⟨?_, ?_, by decide⟩
  · intro hw
    unfold weekendShift
    rw [if_pos hw]
    refine ⟨toordinal_addDays d (7 - weekday d) h, ?_⟩
    show (toordinal (addDays d (7 - weekday d)) + 6) % 7 = 0
    rw [toordinal_addDays d (7 - weekday d) h]
    unfold weekday at hw ⊢
    rcases hw with hw | hw <;> omega
  · intro hw
    unfold weekendShift
    rw [if_neg hw]

theorem c6_weekend_shift_to_monday_witness :
    toordinal (weekendShift ⟨2024, 6, 15, 0⟩) = toordinal ⟨2024, 6, 15, 0⟩ + 2 ∧
      weekday (weekendShift ⟨2024, 6, 15, 0⟩) = 0 :=
  (c6_weekend_shift_to_monday ⟨2024, 6, 15, 0⟩ (by decide)).1 (Or.inl (by decide))

/-! ### Digit-character lemmas for the parse/render round trip -/

theorem digitChar_toNat (k : Nat) (h : k < 10) : (Nat.digitChar k).toNat = 48 + k := by
  interval_cases k <;> decide

theorem digitChar_ne_dot (k : Nat) (h : k < 10) : ¬(Nat.digitChar k = '.') := by
  interval_cases k <;> decide

theorem isAsciiDigit_digitChar (k : Nat) (h : k < 10) :
    isAsciiDigit (Nat.digitChar k) = true := by
  interval_cases k <;> decide

theorem digitsToNat_pad2 (n : Nat) (h : n < 100) : digitsToNat (pad2 n) = n := by
  unfold digitsToNat pad2
  simp only [List.foldl]
  rw [digitChar_toNat (n / 10 % 10) (by omega), digitChar_toNat (n % 10) (by omega)]
  omega

theorem digitsToNat_pad4 (n : Nat) (h : n < 10000) : digitsToNat (pad4 n) = n := by
  unfold digitsToNat pad4
  simp only [List.foldl]
  rw [digitChar_toNat (n / 1000 % 10) (by omega), digitChar_toNat (n / 100 % 10) (by omega),
    digitChar_toNat (n / 10 % 10) (by omega), digitChar_toNat (n % 10) (by omega)]
  omega

theorem dayFieldOk_pad2 (n : Nat) (h1 : 1 ≤ n) (h2 : n ≤ 31) : dayFieldOk (pad2 n) = true := by
  have a1 := isAsciiDigit_digitChar (n / 10 % 10) (by omega)
  have a2 := isAsciiDigit_digitChar (n % 10) (by omega)
  unfold dayFieldOk
  rw [digitsToNat_pad2 n (by omega)]
  simp [pad2, a1, a2, h1, h2]

theorem monthFieldOk_pad2 (n : Nat) (h1 : 1 ≤ n) (h2 : n ≤ 12) :
    monthFieldOk (pad2 n) = true := by
  have a1 := isAsciiDigit_digitChar (n / 10 % 10) (by omega)
  have a2 := isAsciiDigit_digitChar (n % 10) (by omega)
  unfold monthFieldOk
  rw [digitsToNat_pad2 n (by omega)]
  simp [pad2, a1, a2, h1, h2]

theorem yearFieldOk_pad4 (n : Nat) : yearFieldOk (pad4 n) = true := by
  have a1 := isAsciiDigit_digitChar (n / 1000 % 10) (by omega)
  have a2 := isAsciiDigit_digitChar (n / 100 % 10) (by omega)
  have a3 := isAsciiDigit_digitChar (n / 10 % 10) (by omega)
  have a4 := isAsciiDigit_digitChar (n % 10) (by omega)
  unfold yearFieldOk
  simp [pad4, a1, a2, a3, a4]

theorem splitDots_render (y m d : Nat) :
    splitDots (pad2 d ++ '.' :: pad2 m ++ '.' :: pad4 y) = [pad2 d, pad2 m, pad4 y] := by
  have n1 := digitChar_ne_dot (d / 10 % 10) (by omega)
  have n2 := digitChar_ne_dot (d % 10) (by omega)
  have n3 := digitChar_ne_dot (m / 10 % 10) (by omega)
  have n4 := digitChar_ne_dot (m % 10) (by omega)
  have n5 := digitChar_ne_dot (y / 1000 % 10) (by omega)
  have n6 := digitChar_ne_dot (y / 100 % 10) (by omega)
  have n7 := digitChar_ne_dot (y / 10 % 10) (by omega)
  have n8 := digitChar_ne_dot (y % 10) (by omega)
  simp [pad2, pad4, splitDots, n1, n2, n3, n4, n5, n6, n7, n8]

/-- C4 (counterexample): CPython `strptime`'s `%d` and `%m` fields accept one
or two digits, so "1.1.2024" parses successfully (as 1 January 2024) instead
of failing with the claimed `ValidationError`. -/
theorem c4_single_digit_date_accepted :
    Birthday.mk? "1.1.2024" = .ok ⟨2024, 1, 1, 0⟩ := by decide

/-- C4 (amended): `Birthday` parsing is strict about the dotted numeric shape
and calendar validity — "31.02.2020" (calendar-invalid) and "2024-01-01"
(wrong separators) fail with `ValueError("Invalid date format. Use
DD.MM.YYYY")` — but day and month may also be written with one digit, so
"1.1.2024" succeeds; and every calendar-valid date rendered in the two-digit
`DD.MM.YYYY` form parses back to exactly that date, whose `strftime`
re-rendering is that same string. -/
theorem c4_birthday_parse_amended :
    Birthday.mk? "31.02.2020" = .error (.valueError "Invalid date format. Use DD.MM.YYYY") ∧
    Birthday.mk? "2024-01-01" = .error (.valueError "Invalid date format. Use DD.MM.YYYY") ∧
    Birthday.mk? "1.1.2024" = .ok ⟨2024, 1, 1, 0⟩ ∧
    ∀ y m d : Nat, dateCtorOk y m d →
      Birthday.mk? (strftimeDMY ⟨y, m, d, 0⟩) = .ok ⟨y, m, d, 0⟩ := by
  refine ⟨by decide, by decide, by decide, ?_⟩
  intro y m d hok
  obtain ⟨hy1, hy2, hm1, hm2, hd1, hd2⟩ := hok
  have hd31 : d ≤ 31 := le_trans hd2 (by unfold daysInMonth; split_ifs <;> omega)
  simp only [Birthday.mk?, strptimeDMY, strftimeDMY, splitDots_render,
    dayFieldOk_pad2 d hd1 hd31, monthFieldOk_pad2 m hm1 hm2, yearFieldOk_pad4 y,
    Bool.and_self, Bool.and_true, Bool.true_and, if_true,
    digitsToNat_pad2 d (by omega), digitsToNat_pad2 m (by omega),
    digitsToNat_pad4 y (by omega)]
  rw [if_pos ⟨hy1, hd2⟩]

theorem c4_birthday_parse_amended_witness :
    Birthday.mk? "24.08.1991" = .ok ⟨1991, 8, 24, 0⟩ :=
  c4_birthday_parse_amended.2.2.2 1991 8 24 (by decide)

/-- C5 (counterexample): Python's `str.isdigit` accepts more than ASCII
digits; a ten-character string of superscript-two characters, none of which
is an ASCII digit, passes `Phone` validation even though the claim says any
string containing a non-ASCII-digit character must fail. -/
theorem c5_unicode_digits_accepted :
    isAsciiDigit '²' = false ∧
    Phone.mk? "²²²²²²²²²²" = .ok ⟨"²²²²²²²²²²"⟩ :=
  ⟨rfl, by decide⟩

/-- C5 (amended): `Phone` construction succeeds exactly on strings of ten
characters that all pass Python's `str.isdigit` — a superset of the ASCII
digits — storing the string unchanged (so it round-trips via rendering); any
string of another length or with a character `str.isdigit` rejects fails with
`ValueError("The phone number must be a string of 10 digits")`.  Every
10-ASCII-digit string therefore still succeeds. -/
theorem c5_phone_validation_amended (s : String) :
    ((s.length = 10 ∧ s.data.all pyIsDigit = true) → Phone.mk? s = .ok ⟨s⟩) ∧
    ((s.length ≠ 10 ∨ s.data.all pyIsDigit = false) →
      Phone.mk? s = .error (.valueError "The phone number must be a string of 10 digits")) ∧
    (s.data.all isAsciiDigit = true → s.data.all pyIsDigit = true) := by
  refine ⟨?_, ?_, ?_⟩
  · rintro ⟨h1, h2⟩
    have hlen : s.data.length = 10 := h1
    have hne : s.data.isEmpty = false := by
      cases hd : s.data with
      | nil => rw [hd] at hlen; simp at hlen
      | cons a l => rfl
    unfold Phone.mk?
    rw [if_pos]
    simp only [Bool.and_eq_true, Bool.not_eq_true', beq_iff_eq]
    exact ⟨⟨hne, h2⟩, h1⟩
  · intro h
    rcases h with h | h
    · have hb : (s.length == 10) = false := by simp [h]
      simp [Phone.mk?, hb]
    · simp [Phone.mk?, h]
  · intro h
    rw [List.all_eq_true] at h ⊢
    intro c hc
    have hca := h c hc
    unfold pyIsDigit
    rw [hca]
    rfl

theorem c5_phone_validation_amended_witness :
    Phone.mk? "1234567890" = .ok ⟨"1234567890"⟩ :=
  (c5_phone_validation_amended "1234567890").1 ⟨by decide, by decide⟩

example : pyIsDigit '⁴' = true := by decide
example : pyIsDigit '๔' = true := by decide
example : pyIsDigit '৪' = true := by decide
example : pyIsDigit '²' = true := by decide
example : pyIsDigit 'x' = false := by decide
example : pyIsDigit '.' = false := by decide
example : Phone.mk? "⁴⁴⁴⁴⁴⁴⁴⁴⁴⁴" = .ok ⟨"⁴⁴⁴⁴⁴⁴⁴⁴⁴⁴"⟩ := by decide
